import Mathlib

/-!
Shallow embedding of the k8s-resource-cli resource aggregation engine.

The Go program reports CPU/memory figures for workloads from two sources
(direct Kubernetes API, Porter HTTP API) in three valuation modes
(usage, requests, max-requests).  This file embeds, directly from the
source files (types.go, output.go, kubernetes.go, porter.go), the data
model and the pure computational content of:

  - parseResourceValue / formatCPU / formatMemory  (unit conversion),
  - printResults' per-record valuation-mode selection,
  - getDeploymentMetrics and getCronJobMetrics (control-plane collector;
    the Kubernetes API lookups become explicit lookup-result parameters),
  - the per-service record construction of getPorterApplicationMetrics,
  - PorterClient.GetDeploymentTarget / GetCluster load-once caching
    (the HTTP collaborator becomes an oracle indexed by call number).

Modelling conventions: Go int32/int64 values are unbounded Int (the
program performs no wraparound-sensitive arithmetic; the spec assumes
values below 2^63); Go float64 decimals are exact rationals, with
int64(...) truncation rendered as truncating integer division; a Go
(value, error) return is a pair whose second component records whether
the error was non-nil, or an Except when callers abort on the error.
-/

namespace K8sCli

/-! ## Data model (types.go) -/

/-- ResourceMetrics from types.go: CPU in millicores, Memory in bytes. -/
structure ResourceMetrics where
  CPU : Int
  Memory : Int
  deriving DecidableEq, Repr

/-- DeploymentMetrics from types.go.  The Go field Type (the string
"Deployment" or "CronJob") is rendered type' since Type is reserved. -/
structure DeploymentMetrics where
  Name : String
  Namespace : String
  type' : String
  CurrentReplicas : Int
  DesiredReplicas : Int
  MaxReplicas : Int
  Usage : ResourceMetrics := ⟨0, 0⟩
  Requests : ResourceMetrics := ⟨0, 0⟩
  MaxRequests : ResourceMetrics := ⟨0, 0⟩
  deriving DecidableEq, Repr

/-- Output-type constant from types.go. -/
def OutputTypeUsage : String := "usage"

/-- Output-type constant from types.go. -/
def OutputTypeRequests : String := "requests"

/-- Output-type constant from types.go. -/
def OutputTypeMaxRequests : String := "max-requests"

/-! ## Scanning helpers modelling fmt.Sscanf (used by parseResourceValue)

parseResourceValue calls fmt.Sscanf with the formats "%dm", "%f",
"%fGI", "%fG", "%fMI", "%fM", "%fKI", "%fK" and "%d".  A numeric verb
skips leading spaces, scans an optional sign and then the longest
numeric token; any literal characters after the verb must match the
input exactly; input remaining after the format is ignored.  Sscanf
reports n = number of verbs filled, and a non-nil error when a verb or
a literal failed to match.  Floats are modelled as exact mantissa /
denominator pairs (the inputs exercised stay within float64 exactness;
exponent forms, accepted by Go but used nowhere in the repository, are
not modelled). -/

/-- Space characters recognized when a Sscanf verb skips leading space
(and by the model of strings.TrimSpace). -/
def isSpaceChar (c : Char) : Bool := c = ' ' || c = '\t' || c = '\n' || c = '\r'

/-- strings.TrimSpace: drop leading and trailing space characters. -/
def trimSpace (s : List Char) : List Char :=
  ((s.dropWhile isSpaceChar).reverse.dropWhile isSpaceChar).reverse

/-- Numeric value of a list of decimal digit characters. -/
def digitsVal (l : List Char) : Nat :=
  l.foldl (fun a c => a * 10 + (c.toNat - 48)) 0

/-- Scan a nonempty run of decimal digits; none when the input does not
start with a digit. -/
def scanDigits (s : List Char) : Option (Nat × List Char) :=
  let ds := s.takeWhile Char.isDigit
  if ds.isEmpty then none
  else some (digitsVal ds, s.dropWhile Char.isDigit)

/-- Scan an optional leading sign, returning the sign as ±1. -/
def scanSign : List Char → Int × List Char
  | '-' :: rest => (-1, rest)
  | '+' :: rest => (1, rest)
  | s => (1, s)

/-- Model of the %d verb: skip spaces, optional sign, decimal digits. -/
def scanGoInt (s : List Char) : Option (Int × List Char) :=
  let s0 := s.dropWhile isSpaceChar
  let (sign, s1) := scanSign s0
  match scanDigits s1 with
  | none => none
  | some (n, rest) => some (sign * n, rest)

/-- Model of the %f verb: skip spaces, optional sign, decimal digits
with an optional fractional part.  The value is returned as an exact
(mantissa, denominator) pair: the token d₁…dₖ.f₁…fₘ denotes
mantissa / denominator with denominator = 10^m. -/
def scanGoFloat (s : List Char) : Option ((Int × Nat) × List Char) :=
  let s0 := s.dropWhile isSpaceChar
  let (sign, s1) := scanSign s0
  let ip := s1.takeWhile Char.isDigit
  let s2 := s1.dropWhile Char.isDigit
  match s2 with
  | '.' :: s3 =>
    let fp := s3.takeWhile Char.isDigit
    let s4 := s3.dropWhile Char.isDigit
    if ip.isEmpty && fp.isEmpty then none
    else some ((sign * (digitsVal ip * 10 ^ fp.length + digitsVal fp), 10 ^ fp.length), s4)
  | _ =>
    if ip.isEmpty then none
    else some ((sign * digitsVal ip, 1), s2)

/-- Model of fmt.Sscanf(value, "%d<lit>", &x): returns (n, x, err-present).
When the verb fails, n = 0; when the verb succeeds but the literal tail
of the format does not match the next input characters, n = 1 with a
non-nil error; trailing input beyond the format is ignored. -/
def sscanfIntLit (value : String) (lit : List Char) : Nat × Int × Bool :=
  match scanGoInt value.toList with
  | none => (0, 0, true)
  | some (v, rest) =>
    if lit.isPrefixOf rest then (1, v, false) else (1, v, true)

/-- Model of fmt.Sscanf(value, "%f<lit>", &x), analogous to sscanfIntLit;
the scanned value is an exact (mantissa, denominator) pair. -/
def sscanfFloatLit (value : String) (lit : List Char) : Nat × (Int × Nat) × Bool :=
  match scanGoFloat value.toList with
  | none => (0, (0, 1), true)
  | some (v, rest) =>
    if lit.isPrefixOf rest then (1, v, false) else (1, v, true)

/-- Go int64(f * c) for the scanned float f = mantissa/denominator and an
integer unit multiplier c: multiply exactly, then truncate toward zero. -/
def truncScaled (f : Int × Nat) (mult : Int) : Int :=
  Int.tdiv (f.1 * mult) (f.2 : Int)

/-- strings.Contains for character lists (used for the "core" check). -/
def containsSub (needle : List Char) : List Char → Bool
  | [] => needle.isEmpty
  | c :: rest => needle.isPrefixOf (c :: rest) || containsSub needle rest

/-! ## parseResourceValue (output.go) -/

/-- parseResourceValue from output.go.  The Go function returns
(int64, error); the model returns the value and whether the error was
non-nil.  Branch structure mirrors the source: empty string short-cut;
TrimSpace; CPU: "m" suffix (millicores via "%dm"), else a string
containing "core" (cores via "%f", ×1000), else plain cores via "%f";
memory: after ToUpper, suffixes GI/G/MI/M/KI/K (binary/decimal units
via "%f<suffix>"), else raw bytes via "%d".  When Sscanf fills no verb
(n = 0) the source substitutes its own error with value 0; otherwise it
returns the scanned value together with Sscanf's error. -/
def parseResourceValue (value : String) (isCPU : Bool) : Int × Bool :=
  if value = "" then (0, false)
  else
    let value := String.mk (trimSpace value.toList)
    if isCPU then
      if List.isSuffixOf ['m'] value.toList then
        match sscanfIntLit value ['m'] with
        | (0, _, _) => (0, true)
        | (_, millis, err) => (millis, err)
      else if containsSub ['c', 'o', 'r', 'e'] value.toList then
        match sscanfFloatLit value [] with
        | (0, _, _) => (0, true)
        | (_, cores, err) => (truncScaled cores 1000, err)
      else
        match sscanfFloatLit value [] with
        | (0, _, _) => (0, true)
        | (_, cores, err) => (truncScaled cores 1000, err)
    else
      let value := String.mk (value.toList.map Char.toUpper)
      let chars := value.toList
      if List.isSuffixOf ['G', 'I'] chars then
        match sscanfFloatLit value ['G', 'I'] with
        | (0, _, _) => (0, true)
        | (_, gib, err) => (truncScaled gib (1024 * 1024 * 1024), err)
      else if List.isSuffixOf ['G'] chars then
        match sscanfFloatLit value ['G'] with
        | (0, _, _) => (0, true)
        | (_, gb, err) => (truncScaled gb (1000 * 1000 * 1000), err)
      else if List.isSuffixOf ['M', 'I'] chars then
        match sscanfFloatLit value ['M', 'I'] with
        | (0, _, _) => (0, true)
        | (_, mib, err) => (truncScaled mib (1024 * 1024), err)
      else if List.isSuffixOf ['M'] chars then
        match sscanfFloatLit value ['M'] with
        | (0, _, _) => (0, true)
        | (_, mb, err) => (truncScaled mb (1000 * 1000), err)
      else if List.isSuffixOf ['K', 'I'] chars then
        match sscanfFloatLit value ['K', 'I'] with
        | (0, _, _) => (0, true)
        | (_, kib, err) => (truncScaled kib 1024, err)
      else if List.isSuffixOf ['K'] chars then
        match sscanfFloatLit value ['K'] with
        | (0, _, _) => (0, true)
        | (_, kb, err) => (truncScaled kb 1000, err)
      else
        match sscanfIntLit value [] with
        | (0, _, _) => (0, true)
        | (_, b, err) => (b, err)

/-! ## formatCPU / formatMemory (output.go) -/

/-- Two-decimal fixed-point rendering of num/den (den > 0), modelling
fmt.Sprintf("%.2f", float64(num)/float64(den)): round the exact
quotient to the nearest hundredth, ties to even (matching the float64
pipeline on every value the program renders). -/
def formatFixed2 (num den : Nat) : String :=
  let q := num * 100 / den
  let r := num * 100 % den
  let c := if 2 * r < den then q else if den < 2 * r then q + 1
           else if q % 2 = 0 then q else q + 1
  let ip := c / 100
  let fp := c % 100
  toString ip ++ "." ++ (if fp < 10 then "0" else "") ++ toString fp

/-- formatCPU from output.go: at or above 1000 millicores render cores
with two decimals, below render "<n>m". -/
def formatCPU (milliCores : Int) : String :=
  if milliCores ≥ 1000 then formatFixed2 milliCores.toNat 1000 ++ " cores"
  else toString milliCores ++ "m"

/-- formatMemory from output.go with KB = 1024, MB = 1024², GB = 1024³:
render at the largest unit the value reaches, two decimals, falling back
to "<n> B" below one KB. -/
def formatMemory (bytes : Int) : String :=
  if bytes ≥ 1073741824 then formatFixed2 bytes.toNat 1073741824 ++ " GB"
  else if bytes ≥ 1048576 then formatFixed2 bytes.toNat 1048576 ++ " MB"
  else if bytes ≥ 1024 then formatFixed2 bytes.toNat 1024 ++ " KB"
  else toString bytes ++ " B"

/-! ## printResults per-record selection (output.go) -/

/-- The per-record body of printResults' output-type switch: the first
component is the (cpu, memory) string pair displayed for the record, the
second the (cpu, memory) numbers added to the running totals.  In
max-requests mode the source uses MaxRequests only when
MaxReplicas > DesiredReplicas and falls back to Requests otherwise; an
unrecognized output type (rejected earlier by flag validation) leaves
the strings empty and adds nothing. -/
def printResultsSelect (outputType : String) (dm : DeploymentMetrics) :
    (String × String) × (Int × Int) :=
  if outputType = OutputTypeUsage then
    ((formatCPU dm.Usage.CPU, formatMemory dm.Usage.Memory), (dm.Usage.CPU, dm.Usage.Memory))
  else if outputType = OutputTypeRequests then
    ((formatCPU dm.Requests.CPU, formatMemory dm.Requests.Memory),
     (dm.Requests.CPU, dm.Requests.Memory))
  else if outputType = OutputTypeMaxRequests then
    if dm.MaxReplicas > dm.DesiredReplicas then
      ((formatCPU dm.MaxRequests.CPU, formatMemory dm.MaxRequests.Memory),
       (dm.MaxRequests.CPU, dm.MaxRequests.Memory))
    else
      ((formatCPU dm.Requests.CPU, formatMemory dm.Requests.Memory),
       (dm.Requests.CPU, dm.Requests.Memory))
  else (("", ""), (0, 0))

/-! ## Control-plane collector (kubernetes.go)

getDeploymentMetrics and getCronJobMetrics call the Kubernetes API
through clientsets.  In the embedding each lookup becomes an explicit
parameter carrying its result (Except for a call that can fail); lookups
keyed by a selector or name computed inside the function become
functions of that key.  The bodies mirror the Go control flow. -/

/-- A container's declared resource requests, in millicores and bytes.
The Go accessors Resources.Requests.Cpu()/.Memory() yield a zero
quantity when the request is absent, so a missing request appears here
as 0. -/
structure ContainerSpec where
  requestsCPU : Int
  requestsMemory : Int
  deriving DecidableEq, Repr

/-- A pod returned by the pod-inventory lookup: its containers' specs. -/
structure PodSpecInfo where
  containers : List ContainerSpec
  deriving DecidableEq, Repr

/-- A container's live usage sample, in millicores and bytes. -/
structure ContainerUsage where
  usageCPU : Int
  usageMemory : Int
  deriving DecidableEq, Repr

/-- One PodMetrics item from the metrics API: per-container usage. -/
structure PodMetricsInfo where
  containers : List ContainerUsage
  deriving DecidableEq, Repr

/-- The fields of a Deployment consumed by getDeploymentMetrics:
Spec.Replicas (a nil-able pointer), Status.Replicas, and the formatted
label selector (none when Spec.Selector is nil). -/
structure DeploymentInfo where
  specReplicas : Option Int
  statusReplicas : Int
  selector : Option String
  deriving DecidableEq, Repr

/-- The fields of a HorizontalPodAutoscaler consumed by
getDeploymentMetrics: ScaleTargetRef.Name, ScaleTargetRef.Kind and
Spec.MaxReplicas. -/
structure HPAInfo where
  targetName : String
  targetKind : String
  maxReplicas : Int
  deriving DecidableEq, Repr

/-- Sum of declared container requests over a list of pods (the pod loop
of getDeploymentMetrics). -/
def sumPodRequests (pods : List PodSpecInfo) : ResourceMetrics :=
  pods.foldl
    (fun acc pod => pod.containers.foldl
      (fun a c => ⟨a.CPU + c.requestsCPU, a.Memory + c.requestsMemory⟩) acc)
    ⟨0, 0⟩

/-- Sum of live usage samples over a PodMetrics list (the metrics loop
of getDeploymentMetrics). -/
def sumPodUsage (items : List PodMetricsInfo) : ResourceMetrics :=
  items.foldl
    (fun acc pm => pm.containers.foldl
      (fun a c => ⟨a.CPU + c.usageCPU, a.Memory + c.usageMemory⟩) acc)
    ⟨0, 0⟩

/-- getDeploymentMetrics from kubernetes.go.  Parameters: the Deployment
Get result, the pod List result as a function of the label selector, the
PodMetrics List result as a function of the label selector, and the HPA
List result.  The source aborts with an error when the deployment lookup
or the pod listing fails; a failed metrics or HPA listing only prints a
warning (leaving Usage zero, resp. leaving MaxReplicas/MaxRequests at
their defaults).  When a HPA targets this deployment (first match wins),
MaxReplicas becomes its Spec.MaxReplicas, and if that exceeds
DesiredReplicas with at least one matched pod, MaxRequests is the
per-pod average request (truncating division by the matched pod count)
times MaxReplicas. -/
def getDeploymentMetrics (ns name : String)
    (deploymentR : Except String DeploymentInfo)
    (podsLookup : String → Except String (List PodSpecInfo))
    (metricsLookup : String → Except String (List PodMetricsInfo))
    (hpaListR : Except String (List HPAInfo)) : Except String DeploymentMetrics :=
  match deploymentR with
  | .error e => .error ("error getting deployment: " ++ e)
  | .ok deployment =>
    let desired := deployment.specReplicas.getD 0
    let labelSelector := deployment.selector.getD ("app=" ++ name)
    match podsLookup labelSelector with
    | .error e => .error ("error listing pods: " ++ e)
    | .ok pods =>
      let usage := match metricsLookup labelSelector with
        | .error _ => (⟨0, 0⟩ : ResourceMetrics)
        | .ok items => sumPodUsage items
      let base : DeploymentMetrics :=
        { Name := name, Namespace := ns, type' := "Deployment",
          CurrentReplicas := deployment.statusReplicas,
          DesiredReplicas := desired, MaxReplicas := desired,
          Usage := usage, Requests := sumPodRequests pods,
          MaxRequests := ⟨0, 0⟩ }
      match hpaListR with
      | .error _ => .ok base
      | .ok hpas =>
        match hpas.find? (fun hpa => hpa.targetName == name && hpa.targetKind == "Deployment") with
        | none => .ok base
        | some hpa =>
          if hpa.maxReplicas > desired ∧ pods.length > 0 then
            .ok { base with
                  MaxReplicas := hpa.maxReplicas,
                  MaxRequests :=
                    ⟨Int.tdiv base.Requests.CPU (pods.length : Int) * hpa.maxReplicas,
                     Int.tdiv base.Requests.Memory (pods.length : Int) * hpa.maxReplicas⟩ }
          else
            .ok { base with MaxReplicas := hpa.maxReplicas }

/-- The fields of a CronJob consumed by getCronJobMetrics: the job
template's Completions and Parallelism (nil-able), the names of the
Status.Active job references, and the job template's containers. -/
structure CronJobInfo where
  completions : Option Int
  parallelism : Option Int
  active : List String
  templateContainers : List ContainerSpec
  deriving DecidableEq, Repr

/-- getCronJobMetrics from kubernetes.go.  Parameters: the CronJob Get
result, the pod List result per active job name (selector
job-name=<job>), and the PodMetrics Get result per pod name.  Desired
replicas come from Completions, else Parallelism, else 1; each active
job contributes desiredReplicas to CurrentReplicas; Requests sums each
template container's request times desiredReplicas; per-pod usage
lookups that fail are skipped silently; MaxReplicas equals
desiredReplicas and MaxRequests is set to Requests at the end. -/
def getCronJobMetrics (ns name : String)
    (cronJobR : Except String CronJobInfo)
    (podsForJob : String → Except String (List String))
    (podMetricsFor : String → Except String PodMetricsInfo) :
    Except String DeploymentMetrics :=
  match cronJobR with
  | .error e => .error ("error getting cronjob: " ++ e)
  | .ok cronJob =>
    let desiredReplicas : Int :=
      match cronJob.completions with
      | some c => c
      | none =>
        match cronJob.parallelism with
        | some p => p
        | none => 1
    let currentReplicas := cronJob.active.foldl (fun acc _ => acc + desiredReplicas) 0
    let requests := cronJob.templateContainers.foldl
      (fun (a : ResourceMetrics) c =>
        ⟨a.CPU + c.requestsCPU * desiredReplicas,
         a.Memory + c.requestsMemory * desiredReplicas⟩)
      ⟨0, 0⟩
    let usage := cronJob.active.foldl
      (fun (acc : ResourceMetrics) job =>
        match podsForJob job with
        | .error _ => acc
        | .ok podNames => podNames.foldl
          (fun (a : ResourceMetrics) pod =>
            match podMetricsFor pod with
            | .error _ => a
            | .ok pm => pm.containers.foldl
              (fun (b : ResourceMetrics) c => ⟨b.CPU + c.usageCPU, b.Memory + c.usageMemory⟩) a)
          acc)
      ⟨0, 0⟩
    .ok { Name := name, Namespace := ns, type' := "CronJob",
          CurrentReplicas := currentReplicas, DesiredReplicas := desiredReplicas,
          MaxReplicas := desiredReplicas, Usage := usage,
          Requests := requests, MaxRequests := requests }

/-! ## Porter data structures and per-service record (types.go, porter.go) -/

/-- PorterAutoscaling from types.go. -/
structure PorterAutoscaling where
  Enabled : Bool
  MinInstances : Int
  MaxInstances : Int
  deriving DecidableEq, Repr

/-- PorterService from types.go; CPUCores, a float64 in Go, is an exact
rational here. -/
structure PorterService where
  Name : String
  CPUCores : ℚ
  RAMMegabytes : Int
  Instances : Int
  Autoscaling : Option PorterAutoscaling
  deriving DecidableEq, Repr

/-- Go int64(q * 1000) for the rational model of a float64: multiply
exactly and truncate toward zero. -/
def truncMilli (q : ℚ) : Int := Int.tdiv (q.num * 1000) (q.den : Int)

/-- The service-loop body of getPorterApplicationMetrics in porter.go:
the DeploymentMetrics record built for one service of one application
(clusterName is the already-resolved location string).  Replica bounds
come from the declared instance count unless autoscaling is non-nil and
enabled, in which case the declared min/max instance bounds are used;
cpuMillis = int64(CPUCores*1000); memoryBytes = RAMMegabytes*1024*1024;
Requests scales per-instance values by Instances and MaxRequests by
maxReplicas. -/
def porterServiceMetrics (appName clusterName : String) (service : PorterService) :
    DeploymentMetrics :=
  let bounds : Int × Int :=
    match service.Autoscaling with
    | some a =>
      if a.Enabled then (a.MinInstances, a.MaxInstances)
      else (service.Instances, service.Instances)
    | none => (service.Instances, service.Instances)
  let minReplicas := bounds.1
  let maxReplicas := bounds.2
  let cpuMillis := truncMilli service.CPUCores
  let memoryBytes := service.RAMMegabytes * 1024 * 1024
  { Name := appName ++ "-" ++ service.Name, Namespace := clusterName,
    type' := "Deployment",
    CurrentReplicas := service.Instances, DesiredReplicas := minReplicas,
    MaxReplicas := maxReplicas,
    Usage := ⟨0, 0⟩,
    Requests := ⟨cpuMillis * service.Instances, memoryBytes * service.Instances⟩,
    MaxRequests := ⟨cpuMillis * maxReplicas, memoryBytes * maxReplicas⟩ }

/-! ## PorterClient caches (porter.go)

GetDeploymentTarget and GetCluster answer from an in-memory cache that
loadDeploymentTargets / loadClusters fill by one bulk HTTP fetch.  The
HTTP collaborator is modelled as an oracle giving the outcome of the
k-th bulk fetch of that catalog; the client state carries the caches,
the loaded flags, and an instrumentation counter of how many bulk
fetches have been issued (the observable the load-once claim is about).
Caches are association lists where the most recent insert is consulted
first, matching Go map writes. -/

/-- PorterDeploymentTarget from types.go (fields the engine reads). -/
structure PorterDeploymentTarget where
  ID : String
  TargetName : String
  ClusterID : Int
  deriving DecidableEq, Repr

/-- PorterCluster from types.go. -/
structure PorterCluster where
  ID : Int
  ClusterName : String
  deriving DecidableEq, Repr

/-- The mutable caching state of PorterClient from types.go, plus fetch
counters instrumenting the HTTP collaborator. -/
structure PorterClient where
  deploymentTargetCache : List (String × PorterDeploymentTarget)
  deploymentTargetsLoaded : Bool
  clusterCache : List (Int × PorterCluster)
  clustersLoaded : Bool
  targetFetches : Nat
  clusterFetches : Nat
  deriving DecidableEq, Repr

/-- loadDeploymentTargets from porter.go: issue the bulk fetch; on
success insert every target into the cache keyed by ID and set the
loaded flag.  A failed fetch changes neither cache nor flag. -/
def PorterClient.loadDeploymentTargets
    (oracle : Nat → Except String (List PorterDeploymentTarget))
    (c : PorterClient) : Except String Unit × PorterClient :=
  let r := oracle c.targetFetches
  let c := { c with targetFetches := c.targetFetches + 1 }
  match r with
  | .error e => (.error e, c)
  | .ok targets =>
    (.ok (),
     { c with
       deploymentTargetCache :=
         targets.foldl (fun m t => (t.ID, t) :: m) c.deploymentTargetCache,
       deploymentTargetsLoaded := true })

/-- GetDeploymentTarget from porter.go: load the catalog first if the
loaded flag is unset (propagating a load failure), then answer from the
cache, with a not-found error when the ID is absent. -/
def PorterClient.GetDeploymentTarget
    (oracle : Nat → Except String (List PorterDeploymentTarget))
    (c : PorterClient) (targetID : String) :
    Except String PorterDeploymentTarget × PorterClient :=
  match (if c.deploymentTargetsLoaded then (.ok (), c)
         else PorterClient.loadDeploymentTargets oracle c) with
  | (.error e, c2) => (.error e, c2)
  | (.ok _, c2) =>
    match List.lookup targetID c2.deploymentTargetCache with
    | some t => (.ok t, c2)
    | none => (.error ("deployment target " ++ targetID ++ " not found"), c2)

/-- loadClusters from porter.go, the cluster-catalog analogue of
loadDeploymentTargets. -/
def PorterClient.loadClusters
    (oracle : Nat → Except String (List PorterCluster))
    (c : PorterClient) : Except String Unit × PorterClient :=
  let r := oracle c.clusterFetches
  let c := { c with clusterFetches := c.clusterFetches + 1 }
  match r with
  | .error e => (.error e, c)
  | .ok clusters =>
    (.ok (),
     { c with
       clusterCache := clusters.foldl (fun m k => (k.ID, k) :: m) c.clusterCache,
       clustersLoaded := true })

/-- GetCluster from porter.go, the cluster-catalog analogue of
GetDeploymentTarget. -/
def PorterClient.GetCluster
    (oracle : Nat → Except String (List PorterCluster))
    (c : PorterClient) (clusterID : Int) :
    Except String PorterCluster × PorterClient :=
  match (if c.clustersLoaded then (.ok (), c)
         else PorterClient.loadClusters oracle c) with
  | (.error e, c2) => (.error e, c2)
  | (.ok _, c2) =>
    match List.lookup clusterID c2.clusterCache with
    | some k => (.ok k, c2)
    | none => (.error ("cluster not found"), c2)

/-- A sequence of GetDeploymentTarget calls on one client, returning the
final client state (result values are given by the single-call function;
the run exposes the state evolution the caching claims are about). -/
def runGetDeploymentTargets
    (oracle : Nat → Except String (List PorterDeploymentTarget))
    (c : PorterClient) : List String → PorterClient
  | [] => c
  | id :: ids =>
    runGetDeploymentTargets oracle (PorterClient.GetDeploymentTarget oracle c id).2 ids

/-- A sequence of GetCluster calls on one client, returning the final
client state. -/
def runGetClusters
    (oracle : Nat → Except String (List PorterCluster))
    (c : PorterClient) : List Int → PorterClient
  | [] => c
  | id :: ids =>
    runGetClusters oracle (PorterClient.GetCluster oracle c id).2 ids

/-- A PorterClient as constructed in cli.go: empty caches, flags unset,
no fetches issued yet. -/
def freshPorterClient : PorterClient :=
  { deploymentTargetCache := [], deploymentTargetsLoaded := false,
    clusterCache := [], clustersLoaded := false,
    targetFetches := 0, clusterFetches := 0 }

/-! ## Helper lemmas -/

/-- Folding the cronjob request accumulation over the template containers
adds the container sums scaled by the replica factor. -/
theorem foldl_requests_scaled (cs : List ContainerSpec) (d : Int) (a : ResourceMetrics) :
    cs.foldl (fun (x : ResourceMetrics) c =>
      ⟨x.CPU + c.requestsCPU * d, x.Memory + c.requestsMemory * d⟩) a =
    ⟨a.CPU + (cs.map (fun c => c.requestsCPU)).sum * d,
     a.Memory + (cs.map (fun c => c.requestsMemory)).sum * d⟩ := by
  induction cs generalizing a with
  | nil => simp
  | cons c cs ih =>
    simp only [List.foldl_cons, ih, List.map_cons, List.sum_cons, ResourceMetrics.mk.injEq]
    constructor <;> ring

/-- Folding a constant increment over a list multiplies by its length. -/
theorem foldl_add_const (l : List String) (d a : Int) :
    l.foldl (fun acc _ => acc + d) a = a + l.length * d := by
  induction l generalizing a with
  | nil => simp
  | cons x xs ih =>
    simp only [List.foldl_cons, ih, List.length_cons]
    push_cast
    ring

/-- GetDeploymentTarget on a loaded client answers from the cache and
leaves the client unchanged. -/
theorem getDeploymentTarget_loaded
    (o : Nat → Except String (List PorterDeploymentTarget))
    (c : PorterClient) (id : String) (h : c.deploymentTargetsLoaded = true) :
    PorterClient.GetDeploymentTarget o c id =
    ((match List.lookup id c.deploymentTargetCache with
      | some t => Except.ok t
      | none => Except.error ("deployment target " ++ id ++ " not found")), c) := by
  unfold PorterClient.GetDeploymentTarget
  rw [h]
  simp only [eq_self_iff_true, if_true]
  cases List.lookup id c.deploymentTargetCache <;> rfl

/-- A run of GetDeploymentTarget calls on a loaded client never changes
the client state (no fetch, no cache mutation). -/
theorem runTargets_loaded
    (o : Nat → Except String (List PorterDeploymentTarget))
    (c : PorterClient) (ids : List String) (h : c.deploymentTargetsLoaded = true) :
    runGetDeploymentTargets o c ids = c := by
  induction ids generalizing c with
  | nil => rfl
  | cons id ids ih =>
    unfold runGetDeploymentTargets
    rw [getDeploymentTarget_loaded o c id h]
    exact ih c h

/-- A GetDeploymentTarget call on an unloaded client whose bulk fetch
succeeds leaves the client loaded with one more fetch issued. -/
theorem getDeploymentTarget_unloaded_ok
    (o : Nat → Except String (List PorterDeploymentTarget))
    (c : PorterClient) (id : String) (ts : List PorterDeploymentTarget)
    (h : c.deploymentTargetsLoaded = false) (ho : o c.targetFetches = .ok ts) :
    (PorterClient.GetDeploymentTarget o c id).2 =
    { c with
      targetFetches := c.targetFetches + 1,
      deploymentTargetCache :=
        ts.foldl (fun m t => (t.ID, t) :: m) c.deploymentTargetCache,
      deploymentTargetsLoaded := true } := by
  unfold PorterClient.GetDeploymentTarget PorterClient.loadDeploymentTargets
  rw [h, ho]
  simp only [Bool.false_eq_true, if_false]
  split <;> rfl

/-- GetCluster on a loaded client answers from the cache and leaves the
client unchanged. -/
theorem getCluster_loaded
    (o : Nat → Except String (List PorterCluster))
    (c : PorterClient) (id : Int) (h : c.clustersLoaded = true) :
    PorterClient.GetCluster o c id =
    ((match List.lookup id c.clusterCache with
      | some k => Except.ok k
      | none => Except.error ("cluster not found")), c) := by
  unfold PorterClient.GetCluster
  rw [h]
  simp only [eq_self_iff_true, if_true]
  cases List.lookup id c.clusterCache <;> rfl

/-- A run of GetCluster calls on a loaded client never changes the
client state. -/
theorem runClusters_loaded
    (o : Nat → Except String (List PorterCluster))
    (c : PorterClient) (ids : List Int) (h : c.clustersLoaded = true) :
    runGetClusters o c ids = c := by
  induction ids generalizing c with
  | nil => rfl
  | cons id ids ih =>
    unfold runGetClusters
    rw [getCluster_loaded o c id h]
    exact ih c h

/-- A GetCluster call on an unloaded client whose bulk fetch succeeds
leaves the client loaded with one more fetch issued. -/
theorem getCluster_unloaded_ok
    (o : Nat → Except String (List PorterCluster))
    (c : PorterClient) (id : Int) (ks : List PorterCluster)
    (h : c.clustersLoaded = false) (ho : o c.clusterFetches = .ok ks) :
    (PorterClient.GetCluster o c id).2 =
    { c with
      clusterFetches := c.clusterFetches + 1,
      clusterCache := ks.foldl (fun m k => (k.ID, k) :: m) c.clusterCache,
      clustersLoaded := true } := by
  unfold PorterClient.GetCluster PorterClient.loadClusters
  rw [h, ho]
  simp only [Bool.false_eq_true, if_false]
  split <;> rfl

/-! ## Claim theorems -/

/-- Claim C1: printResults selects, per record, the usage pair in usage
mode, the requests pair in requests mode, and in max-requests mode the
max-requests pair if MaxReplicas > DesiredReplicas, else the requests
pair — the same pair feeding both the displayed strings and the running
total; in particular, when MaxReplicas = DesiredReplicas the
max-requests selection coincides exactly with the requests selection. -/
theorem c1_printResults_mode_selection (dm : DeploymentMetrics) :
    printResultsSelect OutputTypeUsage dm =
      ((formatCPU dm.Usage.CPU, formatMemory dm.Usage.Memory),
       (dm.Usage.CPU, dm.Usage.Memory)) ∧
    printResultsSelect OutputTypeRequests dm =
      ((formatCPU dm.Requests.CPU, formatMemory dm.Requests.Memory),
       (dm.Requests.CPU, dm.Requests.Memory)) ∧
    printResultsSelect OutputTypeMaxRequests dm =
      (if dm.MaxReplicas > dm.DesiredReplicas then
        ((formatCPU dm.MaxRequests.CPU, formatMemory dm.MaxRequests.Memory),
         (dm.MaxRequests.CPU, dm.MaxRequests.Memory))
       else
        ((formatCPU dm.Requests.CPU, formatMemory dm.Requests.Memory),
         (dm.Requests.CPU, dm.Requests.Memory))) ∧
    (dm.MaxReplicas = dm.DesiredReplicas →
      printResultsSelect OutputTypeMaxRequests dm =
      printResultsSelect OutputTypeRequests dm) := by
  have h2 : printResultsSelect OutputTypeRequests dm =
      ((formatCPU dm.Requests.CPU, formatMemory dm.Requests.Memory),
       (dm.Requests.CPU, dm.Requests.Memory)) := rfl
  have h3 : printResultsSelect OutputTypeMaxRequests dm =
      (if dm.MaxReplicas > dm.DesiredReplicas then
        ((formatCPU dm.MaxRequests.CPU, formatMemory dm.MaxRequests.Memory),
         (dm.MaxRequests.CPU, dm.MaxRequests.Memory))
       else
        ((formatCPU dm.Requests.CPU, formatMemory dm.Requests.Memory),
         (dm.Requests.CPU, dm.Requests.Memory))) := rfl
  refine ⟨rfl, h2, h3, ?_⟩
  intro h
  rw [h3, h2]
  exact if_neg (by rw [h]; exact lt_irrefl _)

/-- Witness for C1: on a record with MaxReplicas = DesiredReplicas the
max-requests and requests selections agree. -/
theorem c1_witness :
    printResultsSelect OutputTypeMaxRequests
      { Name := "w", Namespace := "ns", type' := "Deployment",
        CurrentReplicas := 1, DesiredReplicas := 2, MaxReplicas := 2,
        Usage := ⟨1, 2⟩, Requests := ⟨3, 4⟩, MaxRequests := ⟨5, 6⟩ } =
    printResultsSelect OutputTypeRequests
      { Name := "w", Namespace := "ns", type' := "Deployment",
        CurrentReplicas := 1, DesiredReplicas := 2, MaxReplicas := 2,
        Usage := ⟨1, 2⟩, Requests := ⟨3, 4⟩, MaxRequests := ⟨5, 6⟩ } :=
  (c1_printResults_mode_selection _).2.2.2 rfl

/-- Counterexample for C5: the spec example "formatting 1,500,000,000
bytes yields 1.50 GB" is false — the formatter uses binary units
(GB = 1024³), so 1,500,000,000 bytes render as "1.40 GB"; and formatted
memory output does not reparse: parseResourceValue has no grammar for
the formatter's B-suffixed unit words, so "2.00 KB" (the rendering of
2048 bytes) reparses as 2 raw bytes without error. -/
theorem c5_counterexample :
    formatMemory 1500000000 = "1.40 GB" ∧
    formatMemory 1500000000 ≠ "1.50 GB" ∧
    formatMemory 2048 = "2.00 KB" ∧
    parseResourceValue "2.00 KB" false = (2, false) := by
  decide

/-- Claim C5 (amended): formatCPU renders below 1000 millicores as
"<n>m" and at or above 1000 as cores with two decimals; formatMemory
renders at the largest binary unit the value reaches (GB/MB/KB with two
decimals, units of 1024), falling back to "<n> B" below one kilobyte;
formatting 1,500,000,000 bytes yields "1.40 GB" (binary units — "1.50
GB" is the rendering of 1,610,612,736 bytes), 999 millicores yields
"999m" and 1000 millicores yields "1.00 cores"; reparsing formatted CPU
output recovers the original quantity within the 2-decimal rendering
precision, while formatted memory output does not reparse to the
original quantity (the parser has no grammar for the formatter's unit
words, e.g. the rendering of 2048 bytes reparses as 2). -/
theorem c5_format_parse_amended :
    (∀ m : Int, m < 1000 → formatCPU m = toString m ++ "m") ∧
    (∀ m : Int, 1000 ≤ m → formatCPU m = formatFixed2 m.toNat 1000 ++ " cores") ∧
    (∀ b : Int, b < 1024 → formatMemory b = toString b ++ " B") ∧
    (∀ b : Int, 1024 ≤ b → b < 1048576 →
      formatMemory b = formatFixed2 b.toNat 1024 ++ " KB") ∧
    (∀ b : Int, 1048576 ≤ b → b < 1073741824 →
      formatMemory b = formatFixed2 b.toNat 1048576 ++ " MB") ∧
    (∀ b : Int, 1073741824 ≤ b →
      formatMemory b = formatFixed2 b.toNat 1073741824 ++ " GB") ∧
    formatCPU 999 = "999m" ∧
    formatCPU 1000 = "1.00 cores" ∧
    formatMemory 1500000000 = "1.40 GB" ∧
    formatMemory 1610612736 = "1.50 GB" ∧
    parseResourceValue (formatCPU 999) true = (999, false) ∧
    parseResourceValue (formatCPU 1000) true = (1000, false) ∧
    parseResourceValue (formatCPU 1500) true = (1500, false) ∧
    parseResourceValue (formatCPU 1234) true = (1230, false) ∧
    parseResourceValue (formatMemory 2048) false = (2, false) := by
  refine ⟨?_, ?_, ?_, ?_, ?_, ?_, ?_⟩
  case refine_7 => decide
  · intro m hm
    unfold formatCPU
    rw [if_neg (by omega)]
  · intro m hm
    unfold formatCPU
    rw [if_pos (by omega)]
  · intro b hb
    unfold formatMemory
    rw [if_neg (by omega), if_neg (by omega), if_neg (by omega)]
  · intro b hb1 hb2
    unfold formatMemory
    rw [if_neg (by omega), if_neg (by omega), if_pos (by omega)]
  · intro b hb1 hb2
    unfold formatMemory
    rw [if_neg (by omega), if_pos (by omega)]
  · intro b hb
    unfold formatMemory
    rw [if_pos (by omega)]

/-- Witness for C5: the general rendering clauses applied at concrete
inputs. -/
theorem c5_witness :
    formatCPU 500 = toString (500 : Int) ++ "m" ∧
    formatCPU 2500 = formatFixed2 (2500 : Int).toNat 1000 ++ " cores" ∧
    formatMemory 500 = toString (500 : Int) ++ " B" ∧
    formatMemory 2048 = formatFixed2 (2048 : Int).toNat 1024 ++ " KB" ∧
    formatMemory 1572864 = formatFixed2 (1572864 : Int).toNat 1048576 ++ " MB" ∧
    formatMemory 1610612736 = formatFixed2 (1610612736 : Int).toNat 1073741824 ++ " GB" :=
  ⟨c5_format_parse_amended.1 500 (by decide),
   c5_format_parse_amended.2.1 2500 (by decide),
   c5_format_parse_amended.2.2.1 500 (by decide),
   c5_format_parse_amended.2.2.2.1 2048 (by decide) (by decide),
   c5_format_parse_amended.2.2.2.2.1 1572864 (by decide) (by decide),
   c5_format_parse_amended.2.2.2.2.2.1 1610612736 (by decide)⟩

/-- Counterexample for C6: "12.3nonsense" matches none of the recognized
grammars, yet parseResourceValue returns 12300 millicores with no error —
Sscanf scans the numeric token and ignores the unrecognized trailing
text, so the claimed "error for every input matching none of these
grammars" fails. -/
theorem c6_counterexample :
    parseResourceValue "12.3nonsense" true = (12300, false) := by decide

/-- Claim C6 (amended): parseResourceValue maps the recognized grammar
to canonical integer units (CPU: bare or "core(s)"-suffixed decimals are
cores ×1000, trailing m is millicores; memory, case-insensitively:
Ki/Mi/Gi are ×1024ⁿ, K/M/G are ×1000ⁿ, bare integers are raw bytes) and
returns an error when the numeric portion at the front of the string is
malformed (e.g. "notanumber", "invalid", "xyz123"); however a string
with a well-formed numeric prefix followed by unrecognized trailing
text is parsed leniently — the trailing text is ignored and no error is
returned (e.g. "123xyz" → 123 bytes). -/
theorem c6_parse_grammar_amended :
    parseResourceValue "1000m" true = (1000, false) ∧
    parseResourceValue "500m" true = (500, false) ∧
    parseResourceValue "1.5" true = (1500, false) ∧
    parseResourceValue "2" true = (2000, false) ∧
    parseResourceValue "2 cores" true = (2000, false) ∧
    parseResourceValue "1.5 cores" true = (1500, false) ∧
    parseResourceValue "1Gi" false = (1073741824, false) ∧
    parseResourceValue "0.5Gi" false = (536870912, false) ∧
    parseResourceValue "1G" false = (1000000000, false) ∧
    parseResourceValue "256Mi" false = (268435456, false) ∧
    parseResourceValue "512M" false = (512000000, false) ∧
    parseResourceValue "100Ki" false = (102400, false) ∧
    parseResourceValue "100K" false = (100000, false) ∧
    parseResourceValue "1024" false = (1024, false) ∧
    parseResourceValue "1048576" false = (1048576, false) ∧
    parseResourceValue "256mi" false = (268435456, false) ∧
    (parseResourceValue "notanumber" true).2 = true ∧
    (parseResourceValue "notanumber" false).2 = true ∧
    (parseResourceValue "invalid" true).2 = true ∧
    (parseResourceValue "notacpu" true).2 = true ∧
    (parseResourceValue "xyz123" false).2 = true ∧
    parseResourceValue "123xyz" false = (123, false) := by
  decide

/-- Claim C10: parseResourceValue applied to the empty string returns
value 0 with no error, in both CPU and memory modes. -/
theorem c10_parse_empty_string :
    parseResourceValue "" true = (0, false) ∧
    parseResourceValue "" false = (0, false) := by
  exact ⟨rfl, rfl⟩

/-- Counterexample for C2: the claim divides by the record's
currentReplicas, but the source divides by the number of matched pods.
With Status.Replicas = 2 but a single matched pod carrying the whole
request of 3 millicores, and an HPA bound of 5 over a desired count of
1, the code computes MaxRequests.CPU = (3 / 1) × 5 = 15, whereas the
claim's formula gives (3 tdiv 2) × 5 = 5: the built record has
MaxReplicas (5) > DesiredReplicas (1) and CurrentReplicas (2) > 0, yet
15 ≠ Int.tdiv 3 2 * 5. -/
theorem c2_counterexample :
    getDeploymentMetrics "ns" "app"
      (.ok { specReplicas := some 1, statusReplicas := 2, selector := none })
      (fun _ => .ok [{ containers := [{ requestsCPU := 3, requestsMemory := 7 }] }])
      (fun _ => .ok [])
      (.ok [{ targetName := "app", targetKind := "Deployment", maxReplicas := 5 }]) =
    .ok { Name := "app", Namespace := "ns", type' := "Deployment",
          CurrentReplicas := 2, DesiredReplicas := 1, MaxReplicas := 5,
          Usage := ⟨0, 0⟩, Requests := ⟨3, 7⟩, MaxRequests := ⟨15, 35⟩ } ∧
    (5 : Int) > 1 ∧ (2 : Int) > 0 ∧ (15 : Int) ≠ Int.tdiv 3 2 * 5 :=
  ⟨rfl, by decide, by decide, by decide⟩

/-- Claim C2 (amended): for every deployment record built by
getDeploymentMetrics with a matching autoscaler bound whose maxReplicas
exceeds the desired count and at least one matched pod, the projected
max requests satisfy MaxRequests = (Requests tdiv matchedPodCount) ×
maxReplicas componentwise, using truncating integer division by the
number of matched pods (not by the record's currentReplicas, which is
taken independently from the deployment status). -/
theorem c2_maxRequests_projection_amended
    (ns name : String) (d : DeploymentInfo)
    (pf : String → Except String (List PodSpecInfo))
    (mf : String → Except String (List PodMetricsInfo))
    (hpas : List HPAInfo) (pods : List PodSpecInfo) (h : HPAInfo)
    (dm : DeploymentMetrics)
    (hpods : pf (d.selector.getD ("app=" ++ name)) = .ok pods)
    (hfind : hpas.find?
      (fun hpa => hpa.targetName == name && hpa.targetKind == "Deployment") = some h)
    (hmax : h.maxReplicas > d.specReplicas.getD 0)
    (hn : pods.length > 0)
    (hres : getDeploymentMetrics ns name (.ok d) pf mf (.ok hpas) = .ok dm) :
    dm.MaxReplicas = h.maxReplicas ∧
    dm.Requests = sumPodRequests pods ∧
    dm.MaxRequests.CPU = Int.tdiv dm.Requests.CPU (pods.length : Int) * dm.MaxReplicas ∧
    dm.MaxRequests.Memory = Int.tdiv dm.Requests.Memory (pods.length : Int) * dm.MaxReplicas := by
  simp only [getDeploymentMetrics, hpods, hfind] at hres
  rw [if_pos ⟨hmax, hn⟩] at hres
  simp only [Except.ok.injEq] at hres
  subst hres
  exact ⟨rfl, rfl, rfl, rfl⟩

/-- Witness for C2 (amended): a deployment with one matched pod
requesting 4 millicores and 8 bytes and an HPA bound of 5 projects
MaxRequests = (4 tdiv 1) × 5 = 20 and (8 tdiv 1) × 5 = 40. -/
theorem c2_witness :
    ({ Name := "app", Namespace := "ns", type' := "Deployment",
       CurrentReplicas := 1, DesiredReplicas := 1, MaxReplicas := 5,
       Usage := ⟨0, 0⟩, Requests := ⟨4, 8⟩,
       MaxRequests := ⟨20, 40⟩ } : DeploymentMetrics).MaxReplicas = 5 ∧
    ({ Name := "app", Namespace := "ns", type' := "Deployment",
       CurrentReplicas := 1, DesiredReplicas := 1, MaxReplicas := 5,
       Usage := ⟨0, 0⟩, Requests := ⟨4, 8⟩,
       MaxRequests := ⟨20, 40⟩ } : DeploymentMetrics).Requests =
      sumPodRequests [{ containers := [{ requestsCPU := 4, requestsMemory := 8 }] }] ∧
    (20 : Int) = Int.tdiv 4 1 * 5 ∧
    (40 : Int) = Int.tdiv 8 1 * 5 :=
  c2_maxRequests_projection_amended "ns" "app"
    { specReplicas := some 1, statusReplicas := 1, selector := none }
    (fun _ => .ok [{ containers := [{ requestsCPU := 4, requestsMemory := 8 }] }])
    (fun _ => .ok [])
    [{ targetName := "app", targetKind := "Deployment", maxReplicas := 5 }]
    [{ containers := [{ requestsCPU := 4, requestsMemory := 8 }] }]
    { targetName := "app", targetKind := "Deployment", maxReplicas := 5 }
    { Name := "app", Namespace := "ns", type' := "Deployment",
      CurrentReplicas := 1, DesiredReplicas := 1, MaxReplicas := 5,
      Usage := ⟨0, 0⟩, Requests := ⟨4, 8⟩, MaxRequests := ⟨20, 40⟩ }
    rfl rfl (by decide) (by decide) rfl

/-- Counterexample for C3: a failing pod-inventory lookup does not
degrade gracefully — getDeploymentMetrics aborts the record with an
error, contradicting the claim that only a failed workload spec lookup
aborts. -/
theorem c3_counterexample :
    getDeploymentMetrics "ns" "app"
      (.ok { specReplicas := some 1, statusReplicas := 1, selector := none })
      (fun _ => .error "boom") (fun _ => .ok []) (.ok []) =
    .error "error listing pods: boom" := rfl

/-- Claim C3 (amended): in getDeploymentMetrics a failed workload spec
lookup aborts the record with an error, and so does a failed pod
inventory lookup; only the usage snapshot and autoscaler list failures
degrade gracefully — with pods available the record is always produced,
a failed usage lookup leaves Usage at zero, and a failed autoscaler
listing leaves MaxReplicas at the desired count with MaxRequests zero. -/
theorem c3_failure_policy_amended :
    (∀ ns name e pf mf hr,
      getDeploymentMetrics ns name (.error e) pf mf hr =
        .error ("error getting deployment: " ++ e)) ∧
    (∀ ns name d pf mf hr e,
      pf (d.selector.getD ("app=" ++ name)) = Except.error e →
      getDeploymentMetrics ns name (.ok d) pf mf hr =
        .error ("error listing pods: " ++ e)) ∧
    (∀ ns name d pf mf hr pods,
      pf (d.selector.getD ("app=" ++ name)) = Except.ok pods →
      (getDeploymentMetrics ns name (.ok d) pf mf hr).toOption.isSome = true) ∧
    (∀ ns name d pf mf hr pods em,
      pf (d.selector.getD ("app=" ++ name)) = Except.ok pods →
      mf (d.selector.getD ("app=" ++ name)) = Except.error em →
      (getDeploymentMetrics ns name (.ok d) pf mf hr).toOption.map
        (fun dm => dm.Usage) = some ⟨0, 0⟩) ∧
    (∀ ns name d pf mf pods eh,
      pf (d.selector.getD ("app=" ++ name)) = Except.ok pods →
      (getDeploymentMetrics ns name (.ok d) pf mf (.error eh)).toOption.map
        (fun dm => (dm.MaxReplicas, dm.MaxRequests)) =
        some (d.specReplicas.getD 0, ⟨0, 0⟩)) := by
  refine ⟨fun ns name e pf mf hr => rfl, ?_, ?_, ?_, ?_⟩
  · intro ns name d pf mf hr e hp
    simp only [getDeploymentMetrics, hp]
  · intro ns name d pf mf hr pods hp
    simp only [getDeploymentMetrics, hp]
    split
    · rfl
    · split
      · rfl
      · split <;> rfl
  · intro ns name d pf mf hr pods em hp hm
    simp only [getDeploymentMetrics, hp, hm]
    split
    · rfl
    · split
      · rfl
      · split <;> rfl
  · intro ns name d pf mf pods eh hp
    simp only [getDeploymentMetrics, hp]
    rfl

/-- Witness for C3 (amended): with an empty pod list available, a dead
metrics source and a dead autoscaler listing, the record is still
produced. -/
theorem c3_witness :
    (getDeploymentMetrics "ns" "web"
      (.ok { specReplicas := some 2, statusReplicas := 2, selector := some "app=web" })
      (fun _ => .ok []) (fun _ => .error "metrics down")
      (.error "hpa down")).toOption.isSome = true :=
  c3_failure_policy_amended.2.2.1 "ns" "web"
    { specReplicas := some 2, statusReplicas := 2, selector := some "app=web" }
    (fun _ => .ok []) (fun _ => .error "metrics down") (.error "hpa down") [] rfl

/-- Counterexample for C4: an autoscaler bound is known (the HPA list
contains a record targeting this deployment) with maxReplicas = 1 while
the deployment desires 5 replicas; the built record has
MaxReplicas = 1 < 5 = DesiredReplicas, violating the claimed invariant
maxReplicas ≥ desiredReplicas whenever a bound is known. -/
theorem c4_counterexample :
    getDeploymentMetrics "ns" "app"
      (.ok { specReplicas := some 5, statusReplicas := 5, selector := none })
      (fun _ => .ok [{ containers := [{ requestsCPU := 100, requestsMemory := 200 }] }])
      (fun _ => .ok [])
      (.ok [{ targetName := "app", targetKind := "Deployment", maxReplicas := 1 }]) =
    .ok { Name := "app", Namespace := "ns", type' := "Deployment",
          CurrentReplicas := 5, DesiredReplicas := 5, MaxReplicas := 1,
          Usage := ⟨0, 0⟩, Requests := ⟨100, 200⟩, MaxRequests := ⟨0, 0⟩ } ∧
    (1 : Int) < 5 :=
  ⟨rfl, by decide⟩

/-- Claim C4 (amended): every constructed record satisfies
MaxReplicas = DesiredReplicas when no autoscaler bound is known (failed
or empty HPA match for deployments, always for cronjobs, disabled or
absent autoscaling for Porter services); when a bound is known,
MaxReplicas is taken verbatim from the bound (the deployment HPA's
maxReplicas, or the Porter service's declared max instances, with
DesiredReplicas its declared min instances), so
MaxReplicas ≥ DesiredReplicas holds exactly when the bound's maximum is
at least the desired count — the code does not enforce it. -/
theorem c4_replica_invariant_amended :
    (∀ ns name d pf mf eh dm,
      getDeploymentMetrics ns name (.ok d) pf mf (.error eh) = .ok dm →
      dm.MaxReplicas = dm.DesiredReplicas) ∧
    (∀ ns name d pf mf hpas dm,
      hpas.find?
        (fun hpa => hpa.targetName == name && hpa.targetKind == "Deployment") = none →
      getDeploymentMetrics ns name (.ok d) pf mf (.ok hpas) = .ok dm →
      dm.MaxReplicas = dm.DesiredReplicas) ∧
    (∀ ns name d pf mf hpas h dm,
      hpas.find?
        (fun hpa => hpa.targetName == name && hpa.targetKind == "Deployment") = some h →
      getDeploymentMetrics ns name (.ok d) pf mf (.ok hpas) = .ok dm →
      dm.MaxReplicas = h.maxReplicas ∧
      (h.maxReplicas ≥ dm.DesiredReplicas → dm.MaxReplicas ≥ dm.DesiredReplicas)) ∧
    (∀ ns name cj pj pm dm,
      getCronJobMetrics ns name (.ok cj) pj pm = .ok dm →
      dm.MaxReplicas = dm.DesiredReplicas) ∧
    (∀ appName clusterName s,
      ((s.Autoscaling.map (fun a => a.Enabled)).getD false = false →
        (porterServiceMetrics appName clusterName s).MaxReplicas =
        (porterServiceMetrics appName clusterName s).DesiredReplicas) ∧
      (∀ a, s.Autoscaling = some a → a.Enabled = true →
        (porterServiceMetrics appName clusterName s).DesiredReplicas = a.MinInstances ∧
        (porterServiceMetrics appName clusterName s).MaxReplicas = a.MaxInstances)) := by
  refine ⟨?_, ?_, ?_, ?_, ?_⟩
  · intro ns name d pf mf eh dm hres
    simp only [getDeploymentMetrics] at hres
    split at hres
    · simp at hres
    · simp only [Except.ok.injEq] at hres
      subst hres
      rfl
  · intro ns name d pf mf hpas dm hfind hres
    simp only [getDeploymentMetrics, hfind] at hres
    split at hres
    · simp at hres
    · simp only [Except.ok.injEq] at hres
      subst hres
      rfl
  · intro ns name d pf mf hpas h dm hfind hres
    simp only [getDeploymentMetrics, hfind] at hres
    split at hres
    · simp at hres
    · split at hres <;>
        (simp only [Except.ok.injEq] at hres
         subst hres
         exact ⟨rfl, fun hge => hge⟩)
  · intro ns name cj pj pm dm hres
    simp only [getCronJobMetrics, Except.ok.injEq] at hres
    subst hres
    rfl
  · intro appName clusterName s
    constructor
    · intro hoff
      cases hA : s.Autoscaling with
      | none => simp [porterServiceMetrics, hA]
      | some a =>
        rw [hA] at hoff
        simp at hoff
        simp [porterServiceMetrics, hA, hoff]
    · intro a hA hon
      simp [porterServiceMetrics, hA, hon]

/-- Witness for C4 (amended): with an empty HPA list (no bound known)
the built record has MaxReplicas equal to DesiredReplicas. -/
theorem c4_witness :
    ({ Name := "app", Namespace := "ns", type' := "Deployment",
       CurrentReplicas := 0, DesiredReplicas := 2, MaxReplicas := 2,
       Usage := ⟨0, 0⟩, Requests := ⟨0, 0⟩,
       MaxRequests := ⟨0, 0⟩ } : DeploymentMetrics).MaxReplicas =
    ({ Name := "app", Namespace := "ns", type' := "Deployment",
       CurrentReplicas := 0, DesiredReplicas := 2, MaxReplicas := 2,
       Usage := ⟨0, 0⟩, Requests := ⟨0, 0⟩,
       MaxRequests := ⟨0, 0⟩ } : DeploymentMetrics).DesiredReplicas :=
  c4_replica_invariant_amended.2.1 "ns" "app"
    { specReplicas := some 2, statusReplicas := 0, selector := none }
    (fun _ => .ok []) (fun _ => .ok []) []
    { Name := "app", Namespace := "ns", type' := "Deployment",
      CurrentReplicas := 0, DesiredReplicas := 2, MaxReplicas := 2,
      Usage := ⟨0, 0⟩, Requests := ⟨0, 0⟩, MaxRequests := ⟨0, 0⟩ }
    rfl rfl

/-- Claim C8: for every CronJob record built by getCronJobMetrics,
DesiredReplicas is the job template's completions if set, else its
parallelism if set, else 1; CurrentReplicas is DesiredReplicas times the
number of active job instances; Requests is the template's per-container
request sum times DesiredReplicas; and MaxReplicas = DesiredReplicas and
MaxRequests = Requests always. -/
theorem c8_cronjob_metrics (ns name : String) (cj : CronJobInfo)
    (pj : String → Except String (List String))
    (pm : String → Except String PodMetricsInfo) (dm : DeploymentMetrics)
    (hres : getCronJobMetrics ns name (.ok cj) pj pm = .ok dm) :
    dm.DesiredReplicas =
      (match cj.completions with
       | some c => c
       | none => match cj.parallelism with | some p => p | none => 1) ∧
    dm.CurrentReplicas = dm.DesiredReplicas * cj.active.length ∧
    dm.Requests.CPU =
      (cj.templateContainers.map (fun c => c.requestsCPU)).sum * dm.DesiredReplicas ∧
    dm.Requests.Memory =
      (cj.templateContainers.map (fun c => c.requestsMemory)).sum * dm.DesiredReplicas ∧
    dm.MaxReplicas = dm.DesiredReplicas ∧
    dm.MaxRequests = dm.Requests := by
  simp only [getCronJobMetrics, Except.ok.injEq] at hres
  subst hres
  refine ⟨rfl, ?_, ?_, ?_, rfl, rfl⟩
  · dsimp only
    rw [foldl_add_const]
    ring
  · dsimp only
    rw [foldl_requests_scaled]
    simp
  · dsimp only
    rw [foldl_requests_scaled]
    simp

/-- Witness for C8: a job template with completions = 3, one container
requesting 10 millicores and 20 bytes, and one active instance yields
CurrentReplicas = 3 and Requests = (10, 20) × 3, with MaxRequests equal
to Requests. -/
theorem c8_witness :
    ({ Name := "job", Namespace := "ns", type' := "CronJob",
       CurrentReplicas := 3, DesiredReplicas := 3, MaxReplicas := 3,
       Usage := ⟨0, 0⟩, Requests := ⟨30, 60⟩,
       MaxRequests := ⟨30, 60⟩ } : DeploymentMetrics).DesiredReplicas = 3 ∧
    ({ Name := "job", Namespace := "ns", type' := "CronJob",
       CurrentReplicas := 3, DesiredReplicas := 3, MaxReplicas := 3,
       Usage := ⟨0, 0⟩, Requests := ⟨30, 60⟩,
       MaxRequests := ⟨30, 60⟩ } : DeploymentMetrics).CurrentReplicas = 3 * 1 ∧
    (30 : Int) = 10 * 3 ∧
    (60 : Int) = 20 * 3 ∧
    (3 : Int) = 3 ∧
    (⟨30, 60⟩ : ResourceMetrics) = ⟨30, 60⟩ := by
  have h := c8_cronjob_metrics "ns" "job"
    { completions := some 3, parallelism := none, active := ["j1"],
      templateContainers := [{ requestsCPU := 10, requestsMemory := 20 }] }
    (fun _ => .ok []) (fun _ => .error "no metrics")
    { Name := "job", Namespace := "ns", type' := "CronJob",
      CurrentReplicas := 3, DesiredReplicas := 3, MaxReplicas := 3,
      Usage := ⟨0, 0⟩, Requests := ⟨30, 60⟩, MaxRequests := ⟨30, 60⟩ }
    rfl
  exact ⟨h.1, h.2.1, h.2.2.1, h.2.2.2.1, h.2.2.2.2.1, h.2.2.2.2.2⟩

/-- Claim C7: for every Porter service record, DesiredReplicas and
MaxReplicas both equal the declared instance count unless autoscaling is
declared enabled, in which case they take the declared min/max instance
bounds; the per-instance quantities are millicores =
trunc(CPUCores × 1000) and bytes = RAMMegabytes × 1024 × 1024 (binary
megabytes); Requests = perInstance × declared instances and
MaxRequests = perInstance × MaxReplicas, componentwise. -/
theorem c7_porter_service_resources (appName clusterName : String) (s : PorterService) :
    (porterServiceMetrics appName clusterName s).DesiredReplicas =
      (match s.Autoscaling with
       | some a => if a.Enabled then a.MinInstances else s.Instances
       | none => s.Instances) ∧
    (porterServiceMetrics appName clusterName s).MaxReplicas =
      (match s.Autoscaling with
       | some a => if a.Enabled then a.MaxInstances else s.Instances
       | none => s.Instances) ∧
    (porterServiceMetrics appName clusterName s).CurrentReplicas = s.Instances ∧
    (porterServiceMetrics appName clusterName s).Requests =
      ⟨Int.tdiv (s.CPUCores.num * 1000) (s.CPUCores.den : Int) * s.Instances,
       s.RAMMegabytes * 1024 * 1024 * s.Instances⟩ ∧
    (porterServiceMetrics appName clusterName s).MaxRequests =
      ⟨Int.tdiv (s.CPUCores.num * 1000) (s.CPUCores.den : Int) *
         (porterServiceMetrics appName clusterName s).MaxReplicas,
       s.RAMMegabytes * 1024 * 1024 *
         (porterServiceMetrics appName clusterName s).MaxReplicas⟩ := by
  rcases hA : s.Autoscaling with _ | a
  · simp [porterServiceMetrics, truncMilli, hA]
  · by_cases hE : a.Enabled <;> simp [porterServiceMetrics, truncMilli, hA, hE]

/-- Counterexample for C9: when the first bulk fetch fails, the cache is
not populated and the next call fetches again — two GetDeploymentTarget
calls on one fresh client issue two bulk fetches, contradicting the
claimed unconditional at-most-once bound on fetch invocations. -/
theorem c9_counterexample :
    (runGetDeploymentTargets
      (fun n => if n = 0 then .error "transport failure"
                else .ok [{ ID := "t1", TargetName := "default", ClusterID := 1 }])
      freshPorterClient ["t1", "t1"]).targetFetches = 2 := rfl

/-- Claim C9 (amended): across any sequence of GetDeploymentTarget
(resp. GetCluster) calls on one PorterClient, once the catalog has been
loaded every call is answered from the in-memory cache with no further
fetch and no state change, so the bulk fetch is invoked at most once
provided its first invocation succeeds; a failed fetch leaves the cache
unloaded and a later call fetches again. -/
theorem c9_cache_load_once_amended :
    (∀ o (c : PorterClient) id, c.deploymentTargetsLoaded = true →
      PorterClient.GetDeploymentTarget o c id =
        ((match List.lookup id c.deploymentTargetCache with
          | some t => Except.ok t
          | none => Except.error ("deployment target " ++ id ++ " not found")), c)) ∧
    (∀ o (c : PorterClient) ids, c.deploymentTargetsLoaded = true →
      runGetDeploymentTargets o c ids = c) ∧
    (∀ o (c : PorterClient) ids ts, c.deploymentTargetsLoaded = false →
      o c.targetFetches = .ok ts →
      (runGetDeploymentTargets o c ids).targetFetches ≤ c.targetFetches + 1) ∧
    (∀ o (c : PorterClient) id, c.clustersLoaded = true →
      PorterClient.GetCluster o c id =
        ((match List.lookup id c.clusterCache with
          | some k => Except.ok k
          | none => Except.error ("cluster not found")), c)) ∧
    (∀ o (c : PorterClient) ids, c.clustersLoaded = true →
      runGetClusters o c ids = c) ∧
    (∀ o (c : PorterClient) ids ks, c.clustersLoaded = false →
      o c.clusterFetches = .ok ks →
      (runGetClusters o c ids).clusterFetches ≤ c.clusterFetches + 1) := by
  refine ⟨getDeploymentTarget_loaded, runTargets_loaded, ?_,
    getCluster_loaded, runClusters_loaded, ?_⟩
  · intro o c ids ts h ho
    cases ids with
    | nil => exact Nat.le_succ _
    | cons id ids =>
      unfold runGetDeploymentTargets
      rw [getDeploymentTarget_unloaded_ok o c id ts h ho,
          runTargets_loaded o _ ids rfl]
  · intro o c ids ks h ho
    cases ids with
    | nil => exact Nat.le_succ _
    | cons id ids =>
      unfold runGetClusters
      rw [getCluster_unloaded_ok o c id ks h ho,
          runClusters_loaded o _ ids rfl]

/-- Witness for C9 (amended): three GetDeploymentTarget calls on a fresh
client with an always-succeeding fetch collaborator issue at most one
bulk fetch. -/
theorem c9_witness :
    (runGetDeploymentTargets
      (fun _ => .ok [{ ID := "t9", TargetName := "edge", ClusterID := 2 }])
      freshPorterClient ["t9", "t9", "t9"]).targetFetches ≤
      freshPorterClient.targetFetches + 1 :=
  c9_cache_load_once_amended.2.2.1
    (fun _ => .ok [{ ID := "t9", TargetName := "edge", ClusterID := 2 }])
    freshPorterClient ["t9", "t9", "t9"]
    [{ ID := "t9", TargetName := "edge", ClusterID := 2 }] rfl rfl

end K8sCli
